import Mathlib

/-!
Verification development for the MySQL → ClickHouse converter
(`mysql_ch_replicator/converter.py`).

The Python source is shallowly embedded: strings are Lean `String`s
(operated on through their character lists), Python byte strings are
`List Nat`, machine integers are unbounded `Int` (the Python ints they
are), and fallible code returns `Except String α` carrying the raised
message.  The embedding follows the source line by line; the few pieces
of repository code that are not part of the examined source (the `enum`
and `table_structure` modules, and the tail of the ALTER handlers) are
modelled from the specification and marked as such in their doc
comments.
-/

namespace Converter

/-- The apostrophe character (ASCII 39), used when building SQL-ish strings. -/
def q : Char := Char.ofNat 39

/-- Python `\s` for the ASCII whitespace characters that appear in SQL text. -/
def isPySpace (c : Char) : Bool :=
  c = ' ' || c = Char.ofNat 9 || c = Char.ofNat 10 || c = Char.ofNat 13 ||
  c = Char.ofNat 11 || c = Char.ofNat 12

/-- ASCII decimal digit test (regex `\d` as it applies to the SQL text here). -/
def isDigitC (c : Char) : Bool :=
  48 ≤ c.toNat && c.toNat ≤ 57

/-- Lower-case one character (ASCII, which is all the SQL text here uses). -/
def lowerChar (c : Char) : Char :=
  if 65 ≤ c.toNat ∧ c.toNat ≤ 90 then Char.ofNat (c.toNat + 32) else c

/-- Python `str.lower()` (ASCII). -/
def pyLower (s : String) : String := String.mk (s.toList.map lowerChar)

/-- Python `str.split(sep)` for a one-character separator, the word being
read accumulated in reverse. -/
def splitOnCharAux (sep : Char) : List Char → List Char → List String
  | [], acc => [String.mk acc.reverse]
  | c :: rest, acc =>
    if c = sep then String.mk acc.reverse :: splitOnCharAux sep rest []
    else splitOnCharAux sep rest (c :: acc)

/-- Python `str.split(sep)` for a one-character separator. -/
def splitOnChar (sep : Char) (s : String) : List String :=
  splitOnCharAux sep s.toList []

instance {ε α : Type} [DecidableEq ε] [DecidableEq α] : DecidableEq (Except ε α) := fun x y =>
  match x, y with
  | Except.ok a, Except.ok b =>
    if h : a = b then isTrue (by rw [h])
    else isFalse (by intro hc; cases hc; exact h rfl)
  | Except.error a, Except.error b =>
    if h : a = b then isTrue (by rw [h])
    else isFalse (by intro hc; cases hc; exact h rfl)
  | Except.ok _, Except.error _ => isFalse (by intro hc; cases hc)
  | Except.error _, Except.ok _ => isFalse (by intro hc; cases hc)

/-- Substring test on character lists: Python's `needle in hay`. -/
def substrL (needle : List Char) : List Char → Bool
  | [] => needle.isEmpty
  | c :: rest => needle.isPrefixOf (c :: rest) || substrL needle rest

/-- Python's `needle in hay` on strings. -/
def substr (needle hay : String) : Bool := substrL needle.toList hay.toList

/-- Longest prefix of characters satisfying `p`, with the remainder. -/
def spanP (p : Char → Bool) : List Char → List Char × List Char
  | [] => ([], [])
  | c :: cs =>
    if p c then
      let r := spanP p cs
      (c :: r.1, r.2)
    else ([], c :: cs)

/-- Python `str.strip()` on a character list. -/
def stripL (l : List Char) : List Char :=
  ((l.dropWhile isPySpace).reverse.dropWhile isPySpace).reverse

/-- Python `str.strip()`. -/
def pyStrip (s : String) : String := String.mk (stripL s.toList)

/-- Numeric value of a list of decimal digit characters, most significant first. -/
def digitsVal (l : List Char) : Nat :=
  l.foldl (fun a c => a * 10 + (c.toNat - 48)) 0

/-- Decimal rendering of a natural number, as Python renders an `int`. -/
def natStr (n : Nat) : String := Nat.repr n

/-- Decimal rendering of an integer, as Python renders an `int`. -/
def intStr (i : Int) : String := Int.repr i

/-- Python `str.replace(pat, rep)` on character lists: every non-overlapping
occurrence, scanned left to right.  An empty pattern leaves the text unchanged
(the source only ever replaces the non-empty pattern `datetime`). -/
def replaceL (pat rep : List Char) (l : List Char) : List Char :=
  if hpat : pat = [] then l
  else
    match l with
    | [] => []
    | c :: rest =>
      if pat.isPrefixOf (c :: rest) then
        rep ++ replaceL pat rep ((c :: rest).drop pat.length)
      else
        c :: replaceL pat rep rest
termination_by l.length
decreasing_by
  · have hlen : 0 < pat.length := by
      cases pat with
      | nil => exact absurd rfl hpat
      | cons a as => simp
    simp only [List.length_drop, List.length_cons]
    omega
  · simp only [List.length_cons]
    omega

/-- Python `str.split()` (no separator) on a character list, with the word
being read accumulated in reverse: maximal runs of non-whitespace. -/
def wsSplitAux : List Char → List Char → List (List Char)
  | [], acc => if acc.isEmpty then [] else [acc.reverse]
  | c :: rest, acc =>
    if isPySpace c then
      (if acc.isEmpty then wsSplitAux rest [] else acc.reverse :: wsSplitAux rest [])
    else wsSplitAux rest (c :: acc)

/-- Python `str.split()` on strings. -/
def pySplit (s : String) : List String :=
  (wsSplitAux s.toList []).map String.mk

/-- Python `dict.get` over the association list modelling `types_mapping`. -/
def lookupMapping : List (String × String) → String → Option String
  | [], _ => none
  | (k, v) :: rest, t => if k = t then some v else lookupMapping rest t

/-- The `f"Decimal({precision}, {scale})"` string built by `convert_type`. -/
def decimalStr (precision scale : Nat) : String :=
  "Decimal(" ++ natStr precision ++ ", " ++ natStr scale ++ ")"

/-- The integer-or-decimal target `convert_type` picks for a parsed
`numeric(precision, scale)`, mirroring the source's nested conditionals. -/
def numericResult (precision scale : Nat) (is_unsigned : Bool) : String :=
  if scale = 0 then
    if is_unsigned then
      if precision ≤ 9 then "UInt32"
      else if precision ≤ 18 then "UInt64"
      else decimalStr precision scale
    else
      if precision ≤ 9 then "Int32"
      else if precision ≤ 18 then "Int64"
      else decimalStr precision scale
  else decimalStr precision scale

/-- Match of the regex `numeric\((\d+)\s*,\s*(\d+)\)` anchored at the head of
`l`, returning the two captured groups as numbers.  The character classes of
consecutive regex pieces are disjoint, so the greedy left-to-right scan
modelled here is exactly what the backtracking engine computes. -/
def matchNumericAt (l : List Char) : Option (Nat × Nat) :=
  if ("numeric(".toList).isPrefixOf l then
    let r0 := l.drop 8
    let s1 := spanP isDigitC r0
    if s1.1.isEmpty then none
    else
      let s2 := spanP isPySpace s1.2
      match s2.2 with
      | ',' :: r3 =>
        let s3 := spanP isPySpace r3
        let s4 := spanP isDigitC s3.2
        if s4.1.isEmpty then none
        else
          match s4.2 with
          | ')' :: _ => some (digitsVal s1.1, digitsVal s4.1)
          | _ => none
      | _ => none
  else none

/-- `re.search` of the numeric pattern: leftmost position where it matches. -/
def searchNumeric : List Char → Option (Nat × Nat)
  | [] => none
  | c :: t =>
    match matchNumericAt (c :: t) with
    | some r => some r
    | none => searchNumeric t

/-- State machine collecting the single-quoted fragments of a character list:
outside quotes characters are skipped, inside quotes they accumulate. -/
def extractQuotedAux : List Char → Option (List Char) → List String
  | [], _ => []
  | c :: rest, none =>
    if c = q then extractQuotedAux rest (some []) else extractQuotedAux rest none
  | c :: rest, some acc =>
    if c = q then String.mk acc.reverse :: extractQuotedAux rest none
    else extractQuotedAux rest (some (c :: acc))

/-- Modelled from the spec: `parse_mysql_enum` (module `enum`, not among the
examined source files) parses a MySQL `enum(...)` type declaration into its
ordered list of label strings; the labels are the single-quoted fragments of
the declaration, in order. -/
def parse_mysql_enum (l : List Char) : List String :=
  extractQuotedAux l none

/-- The `f"'{label.lower()}' = {idx+1}"` list joined with `", "`. -/
def chEnumValues (enum_values : List String) : String :=
  String.intercalate ", " (enum_values.enum.map (fun p =>
    String.singleton q ++ pyLower p.2 ++ String.singleton q ++ " = " ++ natStr (p.1 + 1)))

/-- The `ValueError` message of `convert_timestamp_to_datetime64`. -/
def tsErrMsg (input_str : String) : String :=
  "Invalid input string format: " ++ String.singleton q ++ input_str ++ String.singleton q

/-- Source `convert_timestamp_to_datetime64`: match `^timestamp(?:\((\d+)\))?$`
(case-insensitively, after stripping) and substitute the precision. -/
def convert_timestamp_to_datetime64 (input_str : String) : Except String String :=
  let l := (pyLower (pyStrip input_str)).toList
  if l = "timestamp".toList then Except.ok "DateTime64"
  else if ("timestamp(".toList).isPrefixOf l then
    let s1 := spanP isDigitC (l.drop 10)
    if s1.1.isEmpty then Except.error (tsErrMsg input_str)
    else
      match s1.2 with
      | [')'] => Except.ok ("DateTime64(" ++ String.mk s1.1 ++ ")")
      | _ => Except.error (tsErrMsg input_str)
  else Except.error (tsErrMsg input_str)

/-- Modelled from the spec: the slice of the host `DbReplicator` that the
converter consults (source/target database names, the config's inclusion
predicates and its type-override table). -/
structure DbReplicatorModel where
  database : String
  target_database : String
  config_is_database_matches : String → Bool
  config_is_table_matches : String → Bool
  config_types_mapping : List (String × String)

/-- The converter object: its optional `db_replicator` and the
`types_mapping` its `__init__` derives from it. -/
structure MysqlToClickhouseConverter where
  db_replicator : Option DbReplicatorModel
  types_mapping : List (String × String)

/-- Source `MysqlToClickhouseConverter.__init__`: the override table is empty
unless a `db_replicator` supplies its config's `types_mapping`. -/
def converter_init (db_replicator : Option DbReplicatorModel) : MysqlToClickhouseConverter :=
  { db_replicator := db_replicator
    types_mapping :=
      match db_replicator with
      | none => []
      | some r => r.config_types_mapping }

/-- Source `MysqlToClickhouseConverter.convert_type`, branch for branch in the
source's order.  Strings are examined through their character lists. -/
def convert_type (self : MysqlToClickhouseConverter) (mysql_type parameters : String) :
    Except String String :=
  let mt := mysql_type.toList
  let is_unsigned := substrL ("unsigned".toList) (pyLower parameters).toList
  match lookupMapping self.types_mapping mysql_type with
  | some result_type => Except.ok result_type
  | none =>
    if mt = "point".toList then Except.ok "Tuple(x Float32, y Float32)"
    else if ("numeric".toList).isPrefixOf mt then
      (if substrL ['('] mt && substrL [')'] mt then
        match searchNumeric mt with
        | none => Except.error ("Invalid numeric type definition: " ++ mysql_type)
        | some ps => Except.ok (numericResult ps.1 ps.2 is_unsigned)
      else Except.ok (numericResult 10 0 is_unsigned))
    else if mt = "int".toList then Except.ok (if is_unsigned then "UInt32" else "Int32")
    else if mt = "integer".toList then Except.ok (if is_unsigned then "UInt32" else "Int32")
    else if mt = "bigint".toList then Except.ok (if is_unsigned then "UInt64" else "Int64")
    else if mt = "double".toList then Except.ok "Float64"
    else if mt = "real".toList then Except.ok "Float64"
    else if mt = "float".toList then Except.ok "Float32"
    else if mt = "date".toList then Except.ok "Date32"
    else if mt = "tinyint(1)".toList then Except.ok "Bool"
    else if mt = "bit(1)".toList then Except.ok "Bool"
    else if mt = "bool".toList then Except.ok "Bool"
    else if substrL ("smallint".toList) mt then Except.ok (if is_unsigned then "UInt16" else "Int16")
    else if substrL ("tinyint".toList) mt then Except.ok (if is_unsigned then "UInt8" else "Int8")
    else if substrL ("mediumint".toList) mt then Except.ok (if is_unsigned then "UInt32" else "Int32")
    else if substrL ("datetime".toList) mt then
      Except.ok (String.mk (replaceL ("datetime".toList) ("DateTime64".toList) mt))
    else if substrL ("longtext".toList) mt then Except.ok "String"
    else if substrL ("varchar".toList) mt then Except.ok "String"
    else if ("enum".toList).isPrefixOf mt then
      (let enum_values := parse_mysql_enum mt
       let ch_enum_values := chEnumValues enum_values
       if enum_values.length ≤ 127 then Except.ok ("Enum8(" ++ ch_enum_values ++ ")")
       else Except.ok ("Enum16(" ++ ch_enum_values ++ ")"))
    else if substrL ("text".toList) mt then Except.ok "String"
    else if substrL ("blob".toList) mt then Except.ok "String"
    else if substrL ("char".toList) mt then Except.ok "String"
    else if substrL ("json".toList) mt then Except.ok "String"
    else if substrL ("decimal".toList) mt then Except.ok "Float64"
    else if substrL ("float".toList) mt then Except.ok "Float32"
    else if substrL ("double".toList) mt then Except.ok "Float64"
    else if substrL ("bigint".toList) mt then Except.ok (if is_unsigned then "UInt64" else "Int64")
    else if substrL ("integer".toList) mt || substrL ("int(".toList) mt then
      Except.ok (if is_unsigned then "UInt32" else "Int32")
    else if substrL ("real".toList) mt then Except.ok "Float64"
    else if ("timestamp".toList).isPrefixOf mt then convert_timestamp_to_datetime64 mysql_type
    else if ("time".toList).isPrefixOf mt then Except.ok "String"
    else if substrL ("varbinary".toList) mt then Except.ok "String"
    else if substrL ("binary".toList) mt then Except.ok "String"
    else if substrL ("set(".toList) mt then Except.ok "String"
    else Except.error ("unknown mysql type \"" ++ mysql_type ++ "\"")

/-- Source `convert_field_type`: lower-case both arguments, map the type, then
wrap in `Nullable(...)` unless `not null` is given or the mapped type holds a
`Tuple`. -/
def convert_field_type (self : MysqlToClickhouseConverter) (mysql_type mysql_parameters : String) :
    Except String String :=
  let t := pyLower mysql_type
  let p := pyLower mysql_parameters
  match convert_type self t p with
  | Except.error e => Except.error e
  | Except.ok clickhouse_type =>
    let not_null := substr "not null" p || substr "Tuple" clickhouse_type
    if not_null then Except.ok clickhouse_type
    else Except.ok ("Nullable(" ++ clickhouse_type ++ ")")

/-- Big-endian value of a byte list (each entry one byte of the payload). -/
def readBE (bs : List Nat) : Nat := bs.foldl (fun a b => a * 256 + b) 0

/-- Value of a byte list in the endianness the WKB byte-order flag selected.
An 8-byte read stands for `struct.unpack('d')`: the 64-bit IEEE-754 pattern is
kept as the number it reads as, an injective stand-in for the double. -/
def readEndian (little : Bool) (bs : List Nat) : Nat :=
  if little then readBE bs.reverse else readBE bs

/-- Source `parse_mysql_point`: decode a WKB POINT payload (21 bytes, or 25
with a leading big-endian SRID that is read and discarded) into its two
8-byte coordinates; `none` models a null input and yields `(0, 0)`. -/
def parse_mysql_point : Option (List Nat) → Except String (Nat × Nat)
  | none => Except.ok (0, 0)
  | some binary =>
    if binary.length = 21 then
      let byte_order := binary.getD 0 0
      if byte_order = 0 ∨ byte_order = 1 then
        let little := byte_order = 1
        let wkb_type := readEndian little ((binary.drop 1).take 4)
        if wkb_type = 1 then
          Except.ok (readEndian little ((binary.drop 5).take 8),
                     readEndian little ((binary.drop 13).take 8))
        else Except.error "Not a WKB POINT type"
      else Except.error "Invalid byte order in WKB POINT"
    else if binary.length = 25 then
      let byte_order := binary.getD 4 0
      if byte_order = 0 ∨ byte_order = 1 then
        let little := byte_order = 1
        let wkb_type := readEndian little ((binary.drop 5).take 4)
        if wkb_type = 1 then
          Except.ok (readEndian little ((binary.drop 9).take 8),
                     readEndian little ((binary.drop 17).take 8))
        else Except.error "Not a WKB POINT type"
      else Except.error "Invalid byte order in WKB POINT"
    else Except.error "Invalid binary length for WKB POINT"

/-- Tagged variant for the dynamically typed column values the transcoder
receives: null, int, text, byte string, native set or list of labels, and the
decoded coordinate pair a point column produces. -/
inductive Value where
  | null
  | int (i : Int)
  | str (s : String)
  | bytes (b : List Nat)
  | pyset (elems : List String)
  | pylist (elems : List String)
  | pair (x y : Nat)
deriving DecidableEq, Repr

/-- Python `str(value)` on the variants here (composites schematically; only
the null, int and text cases are ever compared in a theorem). -/
def pyStr : Value → String
  | Value.null => "None"
  | Value.int i => intStr i
  | Value.str s => s
  | Value.bytes b => "b" ++ String.singleton q ++ String.mk (b.map Char.ofNat) ++ String.singleton q
  | Value.pyset es => "set(" ++ String.intercalate ", " es ++ ")"
  | Value.pylist es => "[" ++ String.intercalate ", " es ++ "]"
  | Value.pair x y => "(" ++ natStr x ++ ", " ++ natStr y ++ ")"

/-- Source `convert_bytes` on the variants here: byte strings are decoded to
text (the stdlib decode rendered as a bytewise code-point map); everything
else passes through. -/
def convert_bytes : Value → Value
  | Value.bytes b => Value.str (String.mk (b.map Char.ofNat))
  | v => v

/-- Python `json.dumps` on the variants here: serializable values get their
JSON text, byte strings and sets raise `TypeError` as the stdlib does. -/
def json_dumps : Value → Except String String
  | Value.null => Except.ok "null"
  | Value.int i => Except.ok (intStr i)
  | Value.str s => Except.ok ("\"" ++ s ++ "\"")
  | Value.pylist es => Except.ok ("[" ++ String.intercalate ", " (es.map (fun e => "\"" ++ e ++ "\"")) ++ "]")
  | Value.pair x y => Except.ok ("[" ++ natStr x ++ ", " ++ natStr y ++ "]")
  | Value.bytes _ => Except.error "TypeError: Object of type bytes is not JSON serializable"
  | Value.pyset _ => Except.error "TypeError: Object of type set is not JSON serializable"

/-- Python `len(value)`: defined for sized values, a `TypeError` otherwise. -/
def pyLen : Value → Except String Nat
  | Value.str s => Except.ok s.length
  | Value.bytes b => Except.ok b.length
  | Value.pyset es => Except.ok es.length
  | Value.pylist es => Except.ok es.length
  | Value.pair _ _ => Except.ok 2
  | Value.null => Except.error "TypeError: object of type NoneType has no len()"
  | Value.int _ => Except.error "TypeError: object of type int has no len()"

/-- Python `value < 0`: meaningful for ints, a `TypeError` otherwise. -/
def pyLtZero : Value → Except String Bool
  | Value.int i => Except.ok (decide (i < 0))
  | _ => Except.error "TypeError: not supported between instances"

/-- Whether the value is a Python `str`. -/
def isStrValue : Value → Bool
  | Value.str _ => true
  | _ => false

/-- Hexadecimal digit value. -/
def hexVal (c : Char) : Option Nat :=
  if 48 ≤ c.toNat ∧ c.toNat ≤ 57 then some (c.toNat - 48)
  else if 97 ≤ c.toNat ∧ c.toNat ≤ 102 then some (c.toNat - 87)
  else if 65 ≤ c.toNat ∧ c.toNat ≤ 70 then some (c.toNat - 55)
  else none

/-- Consecutive hex-digit pairs as bytes. -/
def hexPairsToBytes : List Char → Option (List Nat)
  | [] => some []
  | c1 :: c2 :: rest =>
    match hexVal c1, hexVal c2, hexPairsToBytes rest with
    | some a, some b, some r => some ((a * 16 + b) :: r)
    | _, _, _ => none
  | _ => some []

/-- Python `uuid.UUID(s).bytes` for the 36-character hyphenated form the
transcoder feeds it: drop hyphens, read 32 hex digits as 16 bytes. -/
def uuidParse (s : String) : Option (List Nat) :=
  let hexs := s.toList.filter (fun c => c ≠ '-')
  if hexs.length = 32 then hexPairsToBytes hexs else none

/-- Modelled from the spec: `TableField` of the `table_structure` module (not
among the examined source files) — name, type string, raw modifier text, and
the ordered enum/set label list. -/
structure TableField where
  name : String
  field_type : String
  parameters : String
  additional_data : List String
deriving DecidableEq, Repr

/-- Modelled from the spec: `TableStructure` of the `table_structure` module —
table name, ordered fields, primary keys with their derived index positions,
the resolved text charset and the `if_not_exists` flag. -/
structure TableStructure where
  table_name : String
  fields : List TableField
  primary_keys : List String
  primary_key_ids : List Nat
  charset_python : Option String
  if_not_exists : Bool
deriving DecidableEq, Repr

/-- Modelled from the spec: `bytes.decode(charset)` (stdlib codecs), rendered
as a bytewise code-point map; no claim depends on a particular codec. -/
def decodeBytes (charset : String) (b : List Nat) : Except String String :=
  let _ := charset
  Except.ok (String.mk (b.map Char.ofNat))

/-- Python `bit_mask & (1 << k) != 0` with floor semantics on negatives. -/
def bitTest (i : Int) (k : Nat) : Bool :=
  Int.fdiv i ((2 : Int) ^ k) % 2 = 1

/-- Python `','.join(value)`: a list or set of strings joins its elements, a
string joins its characters, anything else is a `TypeError`. -/
def pyJoinComma : Value → Except String String
  | Value.pylist es => Except.ok (String.intercalate "," es)
  | Value.pyset es => Except.ok (String.intercalate "," es)
  | Value.str s => Except.ok (String.intercalate "," (s.toList.map String.singleton))
  | _ => Except.error "TypeError: can only join an iterable of strings"

/-- Modelled from the spec: `EnumConverter.convert_mysql_to_clickhouse_enum`
(module `enum`, not among the examined source files).  Per the spec it turns
the raw driver value (1-based index or label) into the destination's 1-based
ordinal against the field's parsed label list, and failures identify the
field name; a null value is returned unchanged (the spec's pipeline hands
nulls through for enum columns). -/
def convert_mysql_to_clickhouse_enum (v : Value) (enum_values : List String)
    (field_name : String) : Except String Value :=
  match v with
  | Value.null => Except.ok Value.null
  | Value.int i =>
    if 1 ≤ i ∧ i ≤ (enum_values.length : Int) then Except.ok (Value.int i)
    else Except.error ("EnumConversionError: invalid enum index for field " ++ field_name)
  | Value.str s =>
    match (enum_values.map (fun e => pyLower e)).findIdx? (fun e => e = pyLower s) with
    | some j => Except.ok (Value.int ((j : Int) + 1))
    | none => Except.error ("EnumConversionError: invalid enum value for field " ++ field_name)
  | _ => Except.error ("EnumConversionError: unsupported enum value for field " ++ field_name)

/-- One conditional correction of the unsigned-width block: when the guard
substring matched, Python compares the current value with 0 (a `TypeError`
for non-numbers) and adds the modulus to a negative value. -/
def corrStep (applies : Bool) (modulus : Int) (v : Value) : Except String Value :=
  if applies then
    match pyLtZero v with
    | Except.error e => Except.error e
    | Except.ok neg =>
      Except.ok (if neg then (match v with
                              | Value.int i => Value.int (modulus + i)
                              | v => v)
                 else v)
  else Except.ok v

/-- The unsigned-width correction block of `convert_record` (source lines
410-419): five sequential conditional corrections in source order — UInt16,
UInt8, mediumint-by-source-type, UInt32, UInt64 — each firing only while the
value is still negative when it is reached. -/
def unsigned_correction (mysql_field_type clickhouse_field_type : String) (v : Value) :
    Except String Value :=
  Except.bind (corrStep (substr "UInt16" clickhouse_field_type) 65536 v) (fun v1 =>
  Except.bind (corrStep (substr "UInt8" clickhouse_field_type) 256 v1) (fun v2 =>
  Except.bind (corrStep (substr "mediumint" (pyLower mysql_field_type)) 16777216 v2) (fun v3 =>
  Except.bind (corrStep (substr "UInt32" clickhouse_field_type) 4294967296 v3) (fun v4 =>
  corrStep (substr "UInt64" clickhouse_field_type) 18446744073709551616 v4))))

/-- The UUID repacking step: for a destination type mentioning UUID and a
value of textual length 36, decode bytes to text and repack as 16 raw bytes. -/
def uuid_step (clickhouse_field_type : String) (v : Value) : Except String Value :=
  if substr "UUID" clickhouse_field_type then
    Except.bind (pyLen v) (fun n =>
      if n = 36 then
        let v := match v with
                 | Value.bytes b => Value.str (String.mk (b.map Char.ofNat))
                 | v => v
        match v with
        | Value.str s =>
          (match uuidParse s with
           | some bs => Except.ok (Value.bytes bs)
           | none => Except.error "ValueError: badly formed hexadecimal UUID string")
        | _ => Except.error "TypeError: one of the hex, bytes, bytes_le, fields, or int arguments must be given"
      else Except.ok v)
  else Except.ok v

/-- The charset-decoding step: byte values of text/char columns headed for a
string destination are decoded with the table's resolved charset. -/
def charset_step (mysql_field_type clickhouse_field_type : String) (st : TableStructure)
    (v : Value) : Except String Value :=
  if substr "String" clickhouse_field_type &&
     (substr "text" mysql_field_type || substr "char" mysql_field_type) then
    match v with
    | Value.bytes b =>
      let charset := match st.charset_python with
                     | some cs => cs
                     | none => "utf-8"
      Except.map Value.str (decodeBytes charset b)
    | v => Except.ok v
  else Except.ok v

/-- The set-expansion step: a bitmask or native set is filtered against the
field's declared labels (declaration order kept) and comma-joined. -/
def set_step (idx : Nat) (mysql_field_type : String) (st : TableStructure) (v : Value) :
    Except String Value :=
  if substr "set(" mysql_field_type then
    match st.fields[idx]? with
    | none => Except.error "IndexError: list index out of range"
    | some f =>
      let set_values := f.additional_data
      let v := match v with
               | Value.int bit_mask =>
                 Value.pylist ((set_values.enum.filter (fun p => bitTest bit_mask p.1)).map (fun p => p.2))
               | Value.pyset elems =>
                 Value.pylist (set_values.filter (fun sv => elems.contains sv))
               | v => v
      Except.map Value.str (pyJoinComma v)
  else Except.ok v

/-- The block of `convert_record` guarded by `is not None`: UUID repacking,
unsigned-width correction, charset decoding, set expansion, in source order. -/
def non_null_block (idx : Nat) (mysql_field_type clickhouse_field_type : String)
    (st : TableStructure) (v : Value) : Except String Value :=
  Except.bind (uuid_step clickhouse_field_type v) (fun v1 =>
  Except.bind (unsigned_correction mysql_field_type clickhouse_field_type v1) (fun v2 =>
  Except.bind (charset_step mysql_field_type clickhouse_field_type st v2) (fun v3 =>
  set_step idx mysql_field_type st v3)))

/-- The geometry step: a point column's value goes through
`parse_mysql_point` (null payloads included — they become the origin). -/
def point_step (v : Value) : Except String Value :=
  match v with
  | Value.null => Except.map (fun p => Value.pair p.1 p.2) (parse_mysql_point none)
  | Value.bytes b => Except.map (fun p => Value.pair p.1 p.2) (parse_mysql_point (some b))
  | _ => Except.error "TypeError: a bytes-like object is required"

/-- The enum step: the raw value is converted against the field's parsed
label list (the field looked up by position, its name used in failures). -/
def enum_step (idx : Nat) (st : TableStructure) (v : Value) : Except String Value :=
  match st.fields[idx]? with
  | none => Except.error "IndexError: list index out of range"
  | some f => convert_mysql_to_clickhouse_enum v f.additional_data f.name

/-- The per-column pipeline of `convert_record` (source lines 397-454):
temporal stringification, JSON serialization, the null-guarded block, the
geometry step, the enum step — in source order. -/
def convert_record_value (idx : Nat) (mysql_field_value : Value)
    (mysql_field_type clickhouse_field_type : String) (mysql_structure : TableStructure) :
    Except String Value :=
  let v1 := if ("time".toList).isPrefixOf mysql_field_type.toList && substr "String" clickhouse_field_type
            then Value.str (pyStr mysql_field_value) else mysql_field_value
  Except.bind (if mysql_field_type = "json" && substr "String" clickhouse_field_type &&
                  !(isStrValue v1)
               then Except.map Value.str (json_dumps (convert_bytes v1)) else Except.ok v1)
    (fun v2 =>
  Except.bind (if v2 ≠ Value.null
               then non_null_block idx mysql_field_type clickhouse_field_type mysql_structure v2
               else Except.ok v2) (fun v3 =>
  Except.bind (if ("point".toList).isPrefixOf mysql_field_type.toList then point_step v3 else Except.ok v3)
    (fun v4 =>
  if ("enum(".toList).isPrefixOf mysql_field_type.toList then enum_step idx mysql_structure v4
  else Except.ok v4)))

/-- The diagnostic message raised when the record is longer than the schema
(the source's final two sentences of context are abbreviated). -/
def fieldIndexErrMsg (idx : Nat) (st : TableStructure) (v : Value)
    (record_fields field_count : Nat) : String :=
  "Field index " ++ natStr idx ++ " out of range for table " ++ String.singleton q ++
  st.table_name ++ String.singleton q ++ " with field_value: " ++ pyStr v ++
  ". Record has " ++ natStr record_fields ++ " fields but schema has " ++
  natStr field_count ++ " fields."

/-- The column loop of `convert_record`: primary-key filtering, schema bound
checks, then the per-column pipeline. -/
def convert_record_go (mysql_field_types clickhouse_field_types : List String)
    (mysql_structure : TableStructure) (only_primary : Bool) (record_fields : Nat) :
    Nat → List Value → Except String (List Value)
  | _, [] => Except.ok []
  | idx, v :: rest =>
    Except.bind
      (if only_primary && !(mysql_structure.primary_key_ids.contains idx) then Except.ok v
       else
         match mysql_field_types[idx]? with
         | none => Except.error (fieldIndexErrMsg idx mysql_structure v record_fields
                                   mysql_field_types.length)
         | some mt =>
           match clickhouse_field_types[idx]? with
           | none => Except.error "IndexError: list index out of range"
           | some ct => convert_record_value idx v mt ct mysql_structure)
      (fun v2 =>
        Except.bind (convert_record_go mysql_field_types clickhouse_field_types mysql_structure
                       only_primary record_fields (idx + 1) rest)
          (fun rest2 => Except.ok (v2 :: rest2)))

/-- Source `convert_record`: one ClickHouse-ready row from one MySQL row. -/
def convert_record (mysql_record : List Value)
    (mysql_field_types clickhouse_field_types : List String)
    (mysql_structure : TableStructure) (only_primary : Bool) : Except String (List Value) :=
  convert_record_go mysql_field_types clickhouse_field_types mysql_structure only_primary
    mysql_record.length 0 mysql_record

/-- Source `split_high_level`'s loop: split at the token only at nesting
level 0, strip each piece, keep a final piece only when non-empty. -/
def split_go (token : Char) : List Char → Int → List Char → List String → List String
  | [], _, curr, acc =>
    (if curr.isEmpty then acc else String.mk (stripL curr) :: acc).reverse
  | c :: rest, level, curr, acc =>
    if c = token ∧ level = 0 then
      split_go token rest level [] (String.mk (stripL curr) :: acc)
    else
      let level1 := if c = '(' then level + 1 else level
      let level2 := if c = ')' then level1 - 1 else level1
      split_go token rest level2 (curr ++ [c]) acc

/-- Source `split_high_level`. -/
def split_high_level (data : String) (token : Char) : List String :=
  split_go token data.toList 0 [] []

/-- Source `strip_sql_name`: strip whitespace, then one leading and one
trailing backquote. -/
def strip_sql_name (name : String) : String :=
  let l := stripL name.toList
  let l := match l with
           | c :: rest => if c = '`' then rest else c :: rest
           | [] => []
  let l := if l.getLast? = some '`' then l.dropLast else l
  String.mk l

/-- Source `__basic_validate_query`: strip, drop one trailing `;`, refuse a
remaining `;`. -/
def basic_validate_query (mysql_query : String) : Except String String :=
  let l := stripL mysql_query.toList
  let l := if l.getLast? = some ';' then l.dropLast else l
  if substrL [';'] l then Except.error "multi-query statement not supported"
  else Except.ok (String.mk l)

/-- Source `get_db_and_table_name`: resolve the table token (one optional
dot), strip backquotes, rewrite the source database to the target one and
evaluate the config filters when a `db_replicator` is present. -/
def get_db_and_table_name (self : MysqlToClickhouseConverter) (token db_name : String) :
    Except String (String × String × Bool) :=
  Except.bind
    (if substr "." token then
       match splitOnChar '.' token with
       | [a, b] => Except.ok (a, b)
       | _ => Except.error "ValueError: too many values to unpack (expected 2)"
     else Except.ok (db_name, token))
    (fun p =>
      let db_name1 := strip_sql_name p.1
      let table_name := strip_sql_name p.2
      match self.db_replicator with
      | some r =>
        let db_name2 := if db_name1 = r.database then r.target_database else db_name1
        Except.ok (db_name2, table_name,
          r.config_is_database_matches db_name2 && r.config_is_table_matches table_name)
      | none => Except.ok (db_name1, table_name, true))

/-- One structural action of an ALTER translation.  The four column handlers
are modelled from the spec as recorded actions (their bodies are not among
the examined source lines); the dispatch around them is the source's. -/
inductive AlterAction where
  | add_column (db_name table_name : String) (tokens : List String)
  | drop_column (db_name table_name : String) (tokens : List String)
  | modify_column (db_name table_name : String) (tokens : List String)
  | change_column (db_name table_name : String) (tokens : List String)
deriving DecidableEq, Repr

/-- Outcome of `convert_alter_query`: filtered out by config, or the list of
actions its sub-operations performed (skips and no-ops leave no action). -/
inductive AlterOutcome where
  | excluded
  | applied (actions : List AlterAction)
deriving DecidableEq, Repr

/-- The keywords after ADD/DROP that make the sub-operation a silent skip. -/
def isSkipKeyword (t : String) : Bool :=
  t = "constraint" || t = "index" || t = "foreign" || t = "unique"

/-- The body of `convert_alter_query`'s sub-operation loop (source lines
503-539): strip, whitespace-split, read the operation keyword, drop an
optional `column` keyword, then dispatch — skip ADD/DROP of
constraint/index/foreign/unique, no-op for `alter` and `auto_increment`,
record the four column operations, and fail on anything else with the
source's message. -/
def convert_alter_subquery (subquery mysql_query db_name table_name : String) :
    Except String (Option AlterAction) :=
  let subquery := pyStrip subquery
  match pySplit subquery with
  | [] => Except.error "IndexError: list index out of range"
  | t0 :: rest =>
    let op_name := pyLower t0
    match rest with
    | [] => Except.error "IndexError: list index out of range"
    | r0 :: rrest =>
      let tokens := if pyLower r0 = "column" then rrest else r0 :: rrest
      if op_name = "add" then
        match tokens with
        | [] => Except.error "IndexError: list index out of range"
        | t :: _ =>
          if isSkipKeyword (pyLower t) then Except.ok none
          else Except.ok (some (AlterAction.add_column db_name table_name tokens))
      else if op_name = "drop" then
        match tokens with
        | [] => Except.error "IndexError: list index out of range"
        | t :: _ =>
          if isSkipKeyword (pyLower t) then Except.ok none
          else Except.ok (some (AlterAction.drop_column db_name table_name tokens))
      else if op_name = "modify" then
        Except.ok (some (AlterAction.modify_column db_name table_name tokens))
      else if op_name = "alter" then Except.ok none
      else if op_name = "auto_increment" then Except.ok none
      else if op_name = "change" then
        Except.ok (some (AlterAction.change_column db_name table_name tokens))
      else
        Except.error ("operation " ++ op_name ++ " not implement, query: " ++ subquery ++
                      ", full query: " ++ mysql_query)

/-- The sub-operation loop over the comma-split pieces. -/
def alter_subqueries : List String → String → String → String →
    Except String (List AlterAction)
  | [], _, _, _ => Except.ok []
  | sq :: rest, mq, db, tbl =>
    Except.bind (convert_alter_subquery sq mq db tbl) (fun act =>
    Except.bind (alter_subqueries rest mq db tbl) (fun acts =>
      Except.ok (match act with
                 | some a => a :: acts
                 | none => acts)))

/-- Source `convert_alter_query`: validate, check the ALTER TABLE header,
resolve the table reference and the config filters (an excluded table is a
no-op), then split into sub-operations at top-level commas and process each. -/
def convert_alter_query (self : MysqlToClickhouseConverter) (mysql_query db_name : String) :
    Except String AlterOutcome :=
  Except.bind (basic_validate_query mysql_query) (fun mq =>
  match pySplit mq with
  | [] => Except.error "IndexError: list index out of range"
  | t0 :: ts =>
    if pyLower t0 ≠ "alter" then Except.error "wrong query"
    else match ts with
    | [] => Except.error "IndexError: list index out of range"
    | t1 :: ts2 =>
      if pyLower t1 ≠ "table" then Except.error "wrong query"
      else match ts2 with
      | [] => Except.error "IndexError: list index out of range"
      | t2 :: ts3 =>
        Except.bind (get_db_and_table_name self t2 db_name) (fun r =>
          if !r.2.2 then Except.ok AlterOutcome.excluded
          else
            let subqueries := split_high_level (String.intercalate " " ts3) ','
            Except.bind (alter_subqueries subqueries mq r.1 r.2.1)
              (fun acts => Except.ok (AlterOutcome.applied acts))))

/-- Number of occurrences of `token` at parenthesis-nesting depth 0, the
claim's notion of a top-level separator (the depth updated by every bracket). -/
def topLevelSeps (token : Char) : List Char → Int → Nat
  | [], _ => 0
  | c :: rest, level =>
    (if c = token ∧ level = 0 then 1 else 0) +
    topLevelSeps token rest (level + (if c = '(' then 1 else 0) - (if c = ')' then 1 else 0))

/-- Parenthesis-nesting depth after reading the list, starting from `level`. -/
def netLevel : List Char → Int → Int
  | [], level => level
  | c :: rest, level =>
    netLevel rest (level + (if c = '(' then 1 else 0) - (if c = ')' then 1 else 0))

/-- A label wrapped in single quotes, as it appears in an enum declaration. -/
def quoted (lab : String) : List Char := q :: lab.toList ++ [q]

/-- The comma-separated quoted label list of an enum declaration's body. -/
def quotedJoin : List String → List Char
  | [] => []
  | [lab] => quoted lab
  | lab :: rest => quoted lab ++ ',' :: quotedJoin rest

/-- The text of the enum declaration `enum('l1','l2',...)`. -/
def enumDecl (labels : List String) : List Char :=
  'e' :: 'n' :: 'u' :: 'm' :: '(' :: (quotedJoin labels ++ [')'])

/-- A one-column table structure used by the concrete scenarios. -/
def sampleStructure (field_type : String) : TableStructure :=
  { table_name := "test_table"
    fields := [{ name := "c1", field_type := field_type, parameters := "",
                 additional_data := [] }]
    primary_keys := []
    primary_key_ids := []
    charset_python := none
    if_not_exists := false }

theorem except_bind_ok {α β : Type} (a : α) (f : α → Except String β) :
    Except.bind (Except.ok a) f = f a := rfl

theorem except_bind_error {α β : Type} (e : String) (f : α → Except String β) :
    Except.bind (Except.error e : Except String α) f = (Except.error e : Except String β) := rfl

theorem corrStep_false (m : Int) (v : Value) : corrStep false m v = Except.ok v := rfl

theorem corrStep_nonneg (b : Bool) (m : Int) (i : Int) (h : 0 ≤ i) :
    corrStep b m (Value.int i) = Except.ok (Value.int i) := by
  have hd : decide (i < 0) = false := decide_eq_false (by omega)
  cases b <;> simp [corrStep, pyLtZero, hd]

theorem corrStep_neg (m : Int) (i : Int) (h : i < 0) :
    corrStep true m (Value.int i) = Except.ok (Value.int (m + i)) := by
  have hd : decide (i < 0) = true := decide_eq_true h
  simp [corrStep, pyLtZero, hd]

/-- C9: the unsigned-width correction block of `convert_record` leaves every
non-negative value unchanged, whatever the source type and the (unsigned)
destination type strings are: each of its five conditional corrections only
fires on a value that is negative when it is reached. -/
theorem c9_unsigned_correction_idempotent (mt ct : String) (i : Int) (h : 0 ≤ i) :
    unsigned_correction mt ct (Value.int i) = Except.ok (Value.int i) := by
  simp [unsigned_correction, corrStep_nonneg _ _ _ h, except_bind_ok]

theorem c9_unsigned_correction_idempotent_witness :
    unsigned_correction "int unsigned" "UInt32" (Value.int 5) = Except.ok (Value.int 5) :=
  c9_unsigned_correction_idempotent "int unsigned" "UInt32" 5 (by decide)

/-- C2 counterexample: transcoding a negative in-range `mediumint` value whose
ClickHouse destination type is the unsigned 32-bit width adds only the 2^24
mediumint correction — the value the claim prescribes (the 2^32 width modulus
added, with the 2^24 correction additionally applying) is not produced. -/
theorem c2_unsigned_correction_counterexample :
    convert_record [Value.int (-1)] ["mediumint"] ["UInt32"] (sampleStructure "mediumint") false =
      Except.ok [Value.int 16777215] ∧
    (16777215 : Int) ≠ -1 + 4294967296 ∧
    (16777215 : Int) ≠ -1 + 4294967296 + 16777216 :=
  ⟨by decide, by decide, by decide⟩

/-- C2 as amended: the five corrections are attempted in source order (UInt16,
UInt8, mediumint-by-source-type, UInt32, UInt64), each applying only while the
value is still negative when reached.  A negative value at a single unsigned
destination width with a non-mediumint source gets exactly that width's
modulus; a negative in-range mediumint value gets exactly the 2^24 correction
regardless of an unsigned 32/64-bit destination; and a `smallint` column
mapped to UInt16 carrying driver value -1 transcodes to 65535. -/
theorem c2_unsigned_correction_amended :
    (∀ (mt ct : String) (i : Int), substr "UInt16" ct = true → substr "UInt8" ct = false →
       substr "mediumint" (pyLower mt) = false → substr "UInt32" ct = false →
       substr "UInt64" ct = false → i < 0 →
       unsigned_correction mt ct (Value.int i) = Except.ok (Value.int (65536 + i))) ∧
    (∀ (mt ct : String) (i : Int), substr "UInt16" ct = false → substr "UInt8" ct = true →
       substr "mediumint" (pyLower mt) = false → substr "UInt32" ct = false →
       substr "UInt64" ct = false → i < 0 →
       unsigned_correction mt ct (Value.int i) = Except.ok (Value.int (256 + i))) ∧
    (∀ (mt ct : String) (i : Int), substr "UInt16" ct = false → substr "UInt8" ct = false →
       substr "mediumint" (pyLower mt) = false → substr "UInt32" ct = true →
       substr "UInt64" ct = false → i < 0 →
       unsigned_correction mt ct (Value.int i) = Except.ok (Value.int (4294967296 + i))) ∧
    (∀ (mt ct : String) (i : Int), substr "UInt16" ct = false → substr "UInt8" ct = false →
       substr "mediumint" (pyLower mt) = false → substr "UInt32" ct = false →
       substr "UInt64" ct = true → i < 0 →
       unsigned_correction mt ct (Value.int i) =
         Except.ok (Value.int (18446744073709551616 + i))) ∧
    (∀ (mt ct : String) (i : Int), substr "UInt16" ct = false → substr "UInt8" ct = false →
       substr "mediumint" (pyLower mt) = true → i < 0 → -16777216 ≤ i →
       unsigned_correction mt ct (Value.int i) = Except.ok (Value.int (16777216 + i))) ∧
    convert_record [Value.int (-1)] ["smallint"] ["UInt16"] (sampleStructure "smallint") false =
      Except.ok [Value.int 65535] := by
  refine ⟨?_, ?_, ?_, ?_, ?_, by decide⟩
  · intro mt ct i h16 h8 hmed h32 h64 hneg
    simp [unsigned_correction, h16, h8, hmed, h32, h64, corrStep_neg _ _ hneg, corrStep_false,
      except_bind_ok]
  · intro mt ct i h16 h8 hmed h32 h64 hneg
    simp [unsigned_correction, h16, h8, hmed, h32, h64, corrStep_neg _ _ hneg, corrStep_false,
      except_bind_ok]
  · intro mt ct i h16 h8 hmed h32 h64 hneg
    simp [unsigned_correction, h16, h8, hmed, h32, h64, corrStep_neg _ _ hneg, corrStep_false,
      except_bind_ok]
  · intro mt ct i h16 h8 hmed h32 h64 hneg
    simp [unsigned_correction, h16, h8, hmed, h32, h64, corrStep_neg _ _ hneg, corrStep_false,
      except_bind_ok]
  · intro mt ct i h16 h8 hmed hneg hrange
    have hnn : (0 : Int) ≤ 16777216 + i := by omega
    simp [unsigned_correction, h16, h8, hmed, corrStep_neg _ _ hneg, corrStep_false,
      corrStep_nonneg _ _ _ hnn, except_bind_ok]

theorem c2_unsigned_correction_amended_witness :
    unsigned_correction "smallint" "UInt16" (Value.int (-1)) = Except.ok (Value.int 65535) := by
  have h := c2_unsigned_correction_amended.1 "smallint" "UInt16" (-1)
    (by decide) (by decide) (by decide) (by decide) (by decide) (by decide)
  simpa using h

/-- C4: `convert_field_type` wraps the mapped type in `Nullable(...)` exactly
when the lower-cased parameters lack `not null` and the mapped type holds no
`Tuple`; and mapping `int` with parameters `unsigned` (no NOT NULL) yields
`Nullable(UInt32)`. -/
theorem c4_nullable_wrapping :
    (∀ (self : MysqlToClickhouseConverter) (t p ch : String),
       convert_type self (pyLower t) (pyLower p) = Except.ok ch →
       convert_field_type self t p =
         Except.ok (if substr "not null" (pyLower p) || substr "Tuple" ch then ch
                    else "Nullable(" ++ ch ++ ")")) ∧
    convert_field_type (converter_init none) "int" "unsigned" = Except.ok "Nullable(UInt32)" := by
  constructor
  · intro self t p ch h
    simp only [convert_field_type, h]
    split <;> simp_all
  · decide

theorem c4_nullable_wrapping_witness :
    convert_field_type (converter_init none) "date" "" = Except.ok "Nullable(Date32)" := by
  have h := c4_nullable_wrapping.1 (converter_init none) "date" "" "Date32" (by decide)
  rw [h]
  decide

/-- C6: `parse_mysql_point` yields the origin on null; on a 21-byte payload it
reads byte 0 as the flag and on a 25-byte payload byte 4 (after the discarded
big-endian SRID); it succeeds with the two 8-byte coordinates read in the
flagged endianness exactly when the flag is 0 or 1 and the 4-byte WKB type is
1, and fails on any other length, flag or type. -/
theorem c6_parse_mysql_point :
    parse_mysql_point none = Except.ok (0, 0) ∧
    (∀ (b : List Nat) (lt : Bool), b.length = 21 → b.getD 0 0 = (if lt then 1 else 0) →
       readEndian lt ((b.drop 1).take 4) = 1 →
       parse_mysql_point (some b) =
         Except.ok (readEndian lt ((b.drop 5).take 8), readEndian lt ((b.drop 13).take 8))) ∧
    (∀ (b : List Nat) (lt : Bool), b.length = 25 → b.getD 4 0 = (if lt then 1 else 0) →
       readEndian lt ((b.drop 5).take 4) = 1 →
       parse_mysql_point (some b) =
         Except.ok (readEndian lt ((b.drop 9).take 8), readEndian lt ((b.drop 17).take 8))) ∧
    (∀ b : List Nat, b.length ≠ 21 → b.length ≠ 25 →
       parse_mysql_point (some b) = Except.error "Invalid binary length for WKB POINT") ∧
    (∀ b : List Nat, b.length = 21 → b.getD 0 0 ≠ 0 → b.getD 0 0 ≠ 1 →
       parse_mysql_point (some b) = Except.error "Invalid byte order in WKB POINT") ∧
    (∀ b : List Nat, b.length = 25 → b.getD 4 0 ≠ 0 → b.getD 4 0 ≠ 1 →
       parse_mysql_point (some b) = Except.error "Invalid byte order in WKB POINT") ∧
    (∀ (b : List Nat) (lt : Bool), b.length = 21 → b.getD 0 0 = (if lt then 1 else 0) →
       readEndian lt ((b.drop 1).take 4) ≠ 1 →
       parse_mysql_point (some b) = Except.error "Not a WKB POINT type") ∧
    (∀ (b : List Nat) (lt : Bool), b.length = 25 → b.getD 4 0 = (if lt then 1 else 0) →
       readEndian lt ((b.drop 5).take 4) ≠ 1 →
       parse_mysql_point (some b) = Except.error "Not a WKB POINT type") := by
  refine ⟨rfl, ?_, ?_, ?_, ?_, ?_, ?_, ?_⟩
  · intro b lt hlen hflag hwkb
    cases lt <;> simp_all [parse_mysql_point]
  · intro b lt hlen hflag hwkb
    cases lt <;> simp_all [parse_mysql_point]
  · intro b hlen21 hlen25
    simp [parse_mysql_point, hlen21, hlen25]
  · intro b hlen hflag0 hflag1
    simp_all [parse_mysql_point]
  · intro b hlen hflag0 hflag1
    simp_all [parse_mysql_point]
  · intro b lt hlen hflag hwkb
    cases lt <;> simp_all [parse_mysql_point]
  · intro b lt hlen hflag hwkb
    cases lt <;> simp_all [parse_mysql_point]

theorem c6_parse_mysql_point_witness :
    parse_mysql_point
        (some ([0, 0, 0, 0, 1] ++ [63, 240, 0, 0, 0, 0, 0, 0] ++ [64, 0, 0, 0, 0, 0, 0, 0])) =
      Except.ok (4607182418800017408, 4611686018427387904) := by
  have h := c6_parse_mysql_point.2.1
    ([0, 0, 0, 0, 1] ++ [63, 240, 0, 0, 0, 0, 0, 0] ++ [64, 0, 0, 0, 0, 0, 0, 0]) false
    (by decide) (by decide) (by decide)
  rw [h]
  decide

theorem get_db_and_table_name_none_matches (token db_name : String) (r : String × String × Bool)
    (h : get_db_and_table_name (converter_init none) token db_name = Except.ok r) :
    r.2.2 = true := by
  simp only [get_db_and_table_name, converter_init] at h
  by_cases hd : substr "." token
  · simp only [hd, if_pos] at h
    split at h
    · rw [except_bind_ok] at h
      cases h
      rfl
    · rw [except_bind_error] at h
      cases h
  · simp only [hd] at h
    rw [if_neg (by simp), except_bind_ok] at h
    cases h
    rfl

/-- C10: without a `db_replicator` the override table is empty, every
database/table pair is reported as matching the config (so the db name is
only stripped, never rewritten), and `convert_alter_query` never returns the
excluded outcome. -/
theorem c10_no_replicator_defaults :
    (converter_init none).types_mapping = [] ∧
    (∀ (token db_name : String) (r : String × String × Bool),
       get_db_and_table_name (converter_init none) token db_name = Except.ok r →
       r.2.2 = true) ∧
    (∀ token db_name : String, substr "." token = false →
       get_db_and_table_name (converter_init none) token db_name =
         Except.ok (strip_sql_name db_name, strip_sql_name token, true)) ∧
    (∀ (mysql_query db_name : String) (res : AlterOutcome),
       convert_alter_query (converter_init none) mysql_query db_name = Except.ok res →
       res ≠ AlterOutcome.excluded) := by
  refine ⟨rfl, get_db_and_table_name_none_matches, ?_, ?_⟩
  · intro token db_name hd
    simp only [get_db_and_table_name, converter_init]
    rw [if_neg (by simp [hd]), except_bind_ok]
  · intro mq db_name res h
    simp only [convert_alter_query] at h
    cases hbv : basic_validate_query mq with
    | error e => rw [hbv, except_bind_error] at h; cases h
    | ok mq2 =>
      rw [hbv, except_bind_ok] at h
      split at h
      · cases h
      · split at h
        · cases h
        · split at h
          · cases h
          · split at h
            · cases h
            · split at h
              · cases h
              · rename_i t2 ts3 heq
                cases hg : get_db_and_table_name (converter_init none) t2 db_name with
                | error e => rw [hg, except_bind_error] at h; cases h
                | ok r =>
                  rw [hg, except_bind_ok] at h
                  have hm := get_db_and_table_name_none_matches t2 db_name r hg
                  rw [if_neg (by simp [hm])] at h
                  cases ha : alter_subqueries
                      (split_high_level (String.intercalate " " ts3) ',') mq2 r.1 r.2.1 with
                  | error e => rw [ha, except_bind_error] at h; cases h
                  | ok acts =>
                    rw [ha, except_bind_ok] at h
                    cases h
                    intro hc
                    cases hc

theorem c10_no_replicator_defaults_witness :
    get_db_and_table_name (converter_init none) "tbl1" "db1" =
      Except.ok ("db1", "tbl1", true) := by
  have h := c10_no_replicator_defaults.2.2.1 "tbl1" "db1" (by decide)
  rw [h]
  decide

theorem isSkipKeyword_ne_column {t : String} (h : isSkipKeyword t = true) : t ≠ "column" := by
  intro heq
  subst heq
  exact absurd h (by decide)

/-- C8: in `convert_alter_query`'s sub-operation dispatch, an ADD or DROP
followed by CONSTRAINT/INDEX/FOREIGN/UNIQUE is skipped silently, an ALTER or
AUTO_INCREMENT sub-operation is a no-op, and any other leading keyword
outside add/drop/modify/change/alter/auto_increment fails with a message
naming the operation, the sub-operation and the full original statement. -/
theorem c8_alter_dispatch :
    (∀ (sq mq db tbl op w : String) (rest : List String),
       pySplit (pyStrip sq) = op :: w :: rest →
       (pyLower op = "add" ∨ pyLower op = "drop") →
       isSkipKeyword (pyLower w) = true →
       convert_alter_subquery sq mq db tbl = Except.ok none) ∧
    (∀ (sq mq db tbl op w : String) (rest : List String),
       pySplit (pyStrip sq) = op :: w :: rest →
       (pyLower op = "alter" ∨ pyLower op = "auto_increment") →
       convert_alter_subquery sq mq db tbl = Except.ok none) ∧
    (∀ (sq mq db tbl op w : String) (rest : List String),
       pySplit (pyStrip sq) = op :: w :: rest →
       pyLower op ≠ "add" → pyLower op ≠ "drop" → pyLower op ≠ "modify" →
       pyLower op ≠ "change" → pyLower op ≠ "alter" → pyLower op ≠ "auto_increment" →
       convert_alter_subquery sq mq db tbl =
         Except.error ("operation " ++ pyLower op ++ " not implement, query: " ++ pyStrip sq ++
                       ", full query: " ++ mq)) := by
  refine ⟨?_, ?_, ?_⟩
  · intro sq mq db tbl op w rest hsplit hop hskip
    simp only [convert_alter_subquery, hsplit]
    rw [if_neg (isSkipKeyword_ne_column hskip)]
    rcases hop with h | h <;> rw [h] <;> simp [hskip]
  · intro sq mq db tbl op w rest hsplit hop
    simp only [convert_alter_subquery, hsplit]
    by_cases hcol : pyLower w = "column" <;>
      rcases hop with h | h <;> simp [hcol, h]
  · intro sq mq db tbl op w rest hsplit h1 h2 h3 h4 h5 h6
    simp only [convert_alter_subquery, hsplit]
    by_cases hcol : pyLower w = "column" <;>
      simp [hcol, h1, h2, h3, h4, h5, h6]

theorem c8_alter_dispatch_witness :
    convert_alter_subquery "ADD CONSTRAINT fk_x FOREIGN KEY (a) REFERENCES t(b)"
        "ALTER TABLE t ADD CONSTRAINT fk_x FOREIGN KEY (a) REFERENCES t(b)" "db" "t" =
      Except.ok none := by
  exact c8_alter_dispatch.1 "ADD CONSTRAINT fk_x FOREIGN KEY (a) REFERENCES t(b)"
    "ALTER TABLE t ADD CONSTRAINT fk_x FOREIGN KEY (a) REFERENCES t(b)" "db" "t"
    "ADD" "CONSTRAINT" ["fk_x", "FOREIGN", "KEY", "(a)", "REFERENCES", "t(b)"]
    (by decide) (Or.inl (by decide)) (by decide)

theorem toList_mk (l : List Char) : (String.mk l).toList = l := rfl

theorem mk_toList (s : String) : String.mk s.toList = s := rfl

theorem substrL_append_right (n l r : List Char) (h : substrL n r = true) :
    substrL n (l ++ r) = true := by
  induction l with
  | nil => simpa using h
  | cons c cs ih => simp [substrL, ih]

theorem spanP_prefix (p : Char → Bool) (xs : List Char) (y : Char) (ys : List Char)
    (h : ∀ c ∈ xs, p c = true) (hy : p y = false) :
    spanP p (xs ++ y :: ys) = (xs, y :: ys) := by
  induction xs with
  | nil => simp [spanP, hy]
  | cons c cs ih =>
    have hc : p c = true := h c (List.mem_cons_self c cs)
    have ih2 := ih (fun d hd => h d (List.mem_cons_of_mem c hd))
    simp [spanP, hc, ih2]

theorem split_go_acc (token : Char) (l : List Char) :
    ∀ (level : Int) (curr : List Char) (acc : List String),
    split_go token l level curr acc = acc.reverse ++ split_go token l level curr [] := by
  induction l with
  | nil =>
    intro level curr acc
    simp only [split_go]
    by_cases hc : curr.isEmpty <;> simp [hc]
  | cons c rest ih =>
    intro level curr acc
    simp only [split_go]
    by_cases hc : c = token ∧ level = 0
    · rw [if_pos hc, if_pos hc, ih level [] (String.mk (stripL curr) :: acc),
        ih level [] [String.mk (stripL curr)]]
      simp
    · rw [if_neg hc, if_neg hc]
      exact ih _ _ _

theorem split_go_no_sep (token : Char) (hpar1 : token ≠ '(') (hpar2 : token ≠ ')')
    (a : List Char) :
    ∀ (rest : List Char) (level : Int) (curr : List Char) (acc : List String),
    topLevelSeps token a level = 0 →
    split_go token (a ++ rest) level curr acc =
      split_go token rest (netLevel a level) (curr ++ a) acc := by
  induction a with
  | nil =>
    intro rest level curr acc _
    simp [netLevel]
  | cons c a' ih =>
    intro rest level curr acc h
    simp only [topLevelSeps] at h
    have hif : ¬(c = token ∧ level = 0) := by
      intro hct
      simp [hct] at h
    have hrest : topLevelSeps token a'
        (level + (if c = '(' then 1 else 0) - (if c = ')' then 1 else 0)) = 0 := by
      simpa [hif] using h
    simp only [List.cons_append, split_go]
    rw [if_neg hif]
    have hlv : (if c = ')' then (if c = '(' then level + 1 else level) - 1
               else (if c = '(' then level + 1 else level)) =
               level + (if c = '(' then 1 else 0) - (if c = ')' then 1 else 0) := by
      by_cases h1 : c = '(' <;> by_cases h2 : c = ')' <;> simp_all
    rw [hlv]
    simp only [List.append_eq]
    rw [ih rest _ (curr ++ [c]) acc hrest]
    simp [netLevel]

/-- C7: `split_high_level` splits exactly at separators lying at parenthesis
nesting depth 0 — a separator-free balanced prefix is split off whole and
stripped, an input without top-level separators comes back as its single
stripped self, and the example ALTER body splits into exactly its two
sub-operations. -/
theorem c7_split_high_level :
    (∀ (token : Char) (a b : List Char), token ≠ '(' → token ≠ ')' →
       topLevelSeps token a 0 = 0 → netLevel a 0 = 0 →
       split_high_level (String.mk (a ++ token :: b)) token =
         String.mk (stripL a) :: split_high_level (String.mk b) token) ∧
    (∀ (token : Char) (a : List Char), token ≠ '(' → token ≠ ')' →
       topLevelSeps token a 0 = 0 →
       split_high_level (String.mk a) token =
         if a.isEmpty then [] else [String.mk (stripL a)]) ∧
    split_high_level "ADD COLUMN a NUMERIC(5,2), ADD COLUMN b INT" ',' =
      ["ADD COLUMN a NUMERIC(5,2)", "ADD COLUMN b INT"] := by
  refine ⟨?_, ?_, by decide⟩
  · intro token a b h1 h2 h3 h4
    simp only [split_high_level, toList_mk]
    rw [split_go_no_sep token h1 h2 a (token :: b) 0 [] [] h3, h4]
    simp only [List.nil_append, split_go]
    rw [if_pos (And.intro trivial trivial), split_go_acc]
    simp

  · intro token a h1 h2 h3
    have hmain := split_go_no_sep token h1 h2 a [] 0 [] [] h3
    simp only [List.append_nil] at hmain
    simp only [split_high_level, toList_mk]
    rw [hmain]
    simp only [split_go, List.nil_append]
    by_cases he : a.isEmpty <;> simp [he]

theorem c7_split_high_level_witness :
    split_high_level (String.mk ("x(1,2)".toList ++ ',' :: "y z".toList)) ',' =
      String.mk (stripL "x(1,2)".toList) :: split_high_level (String.mk "y z".toList) ',' :=
  c7_split_high_level.1 ',' "x(1,2)".toList "y z".toList
    (by decide) (by decide) (by decide) (by decide)

theorem spanP_stop (p : Char → Bool) (y : Char) (ys : List Char) (hy : p y = false) :
    spanP p (y :: ys) = ([], y :: ys) := by
  simp [spanP, hy]

theorem digit_not_space {c : Char} (h : isDigitC c = true) : isPySpace c = false := by
  have hb : 48 ≤ c.toNat ∧ c.toNat ≤ 57 := by simpa [isDigitC] using h
  have h1 : c ≠ ' ' := by intro he; rw [he] at hb; exact absurd hb (by decide)
  have h2 : c ≠ Char.ofNat 9 := by intro he; rw [he] at hb; exact absurd hb (by decide)
  have h3 : c ≠ Char.ofNat 10 := by intro he; rw [he] at hb; exact absurd hb (by decide)
  have h4 : c ≠ Char.ofNat 13 := by intro he; rw [he] at hb; exact absurd hb (by decide)
  have h5 : c ≠ Char.ofNat 11 := by intro he; rw [he] at hb; exact absurd hb (by decide)
  have h6 : c ≠ Char.ofNat 12 := by intro he; rw [he] at hb; exact absurd hb (by decide)
  simp [isPySpace, h1, h2, h3, h4, h5, h6]

theorem matchNumericAt_canonical (ds1 ds2 rest : List Char)
    (h1 : ds1 ≠ []) (h2 : ds2 ≠ [])
    (hd1 : ∀ c ∈ ds1, isDigitC c = true) (hd2 : ∀ c ∈ ds2, isDigitC c = true) :
    matchNumericAt
        ('n' :: 'u' :: 'm' :: 'e' :: 'r' :: 'i' :: 'c' :: '(' ::(ds1 ++ (',' :: (ds2 ++ (')' :: rest))))) =
      some (digitsVal ds1, digitsVal ds2) := by
  obtain ⟨d, ds2', rfl⟩ : ∃ d ds2', ds2 = d :: ds2' := by
    cases ds2 with
    | nil => exact absurd rfl h2
    | cons d t => exact ⟨d, t, rfl⟩
  have he1 : ds1.isEmpty = false := by
    cases ds1 with
    | nil => exact absurd rfl h1
    | cons _ _ => rfl
  have hdd : isDigitC d = true := hd2 d (List.mem_cons_self _ _)
  have hpre : ("numeric(".toList).isPrefixOf
      ('n' :: 'u' :: 'm' :: 'e' :: 'r' :: 'i' :: 'c' :: '(' ::(ds1 ++ (',' :: (d :: (ds2' ++ (')' :: rest)))))) =
      true := by
    simp [List.isPrefixOf]
  have hspan1 : spanP isDigitC (ds1 ++ (',' :: (d :: (ds2' ++ (')' :: rest))))) =
      (ds1, ',' :: (d :: (ds2' ++ (')' :: rest)))) :=
    spanP_prefix _ _ _ _ hd1 (by decide)
  have hspace1 : spanP isPySpace (',' :: (d :: (ds2' ++ (')' :: rest)))) =
      ([], ',' :: (d :: (ds2' ++ (')' :: rest)))) :=
    spanP_stop _ _ _ (by decide)
  have hspace2 : spanP isPySpace (d :: (ds2' ++ (')' :: rest))) =
      ([], d :: (ds2' ++ (')' :: rest))) :=
    spanP_stop _ _ _ (digit_not_space hdd)
  have hspan2 := spanP_prefix isDigitC (d :: ds2') ')' rest hd2 (by decide)
  simp only [List.cons_append] at hspan2
  simp only [matchNumericAt, hpre, if_true, List.drop_succ_cons, List.drop_zero,
    List.cons_append, hspan1, he1, Bool.false_eq_true, if_false, hspace1, hspace2, hspan2,
    List.isEmpty_cons]

theorem searchNumeric_canonical (ds1 ds2 rest : List Char)
    (h1 : ds1 ≠ []) (h2 : ds2 ≠ [])
    (hd1 : ∀ c ∈ ds1, isDigitC c = true) (hd2 : ∀ c ∈ ds2, isDigitC c = true) :
    searchNumeric
        ('n' :: 'u' :: 'm' :: 'e' :: 'r' :: 'i' :: 'c' :: '(' ::(ds1 ++ (',' :: (ds2 ++ (')' :: rest))))) =
      some (digitsVal ds1, digitsVal ds2) := by
  have hm := matchNumericAt_canonical ds1 ds2 rest h1 h2 hd1 hd2
  simp only [searchNumeric, hm]

/-- C1: `convert_type`\'s `numeric` handling — an explicit `numeric(p,s)` maps
by the (precision, scale, unsignedness) policy of the claim, a bare `numeric`
uses the defaults p=10, s=0 (hence a 64-bit integer), and when parentheses
are present but the `numeric(p,s)` pattern matches nowhere, it fails with the
invalid-definition error. -/
theorem c1_numeric_type_mapping :
    (∀ (ds1 ds2 : List Char) (params : String),
       ds1 ≠ [] → ds2 ≠ [] →
       (∀ c ∈ ds1, isDigitC c = true) → (∀ c ∈ ds2, isDigitC c = true) →
       convert_type (converter_init none)
           (String.mk
             ('n' :: 'u' :: 'm' :: 'e' :: 'r' :: 'i' :: 'c' :: '(' ::(ds1 ++ (',' :: (ds2 ++ [')'])))))
           params =
         Except.ok
           (if digitsVal ds2 = 0 then
              if digitsVal ds1 ≤ 9 then
                (if substr "unsigned" (pyLower params) then "UInt32" else "Int32")
              else if digitsVal ds1 ≤ 18 then
                (if substr "unsigned" (pyLower params) then "UInt64" else "Int64")
              else decimalStr (digitsVal ds1) (digitsVal ds2)
            else decimalStr (digitsVal ds1) (digitsVal ds2))) ∧
    (∀ params : String,
       convert_type (converter_init none) "numeric" params =
         Except.ok (if substr "unsigned" (pyLower params) then "UInt64" else "Int64")) ∧
    (∀ t params : String,
       ("numeric".toList).isPrefixOf t.toList = true →
       substrL ['('] t.toList = true → substrL [')'] t.toList = true →
       searchNumeric t.toList = none →
       convert_type (converter_init none) t params =
         Except.error ("Invalid numeric type definition: " ++ t)) := by
  refine ⟨?_, ?_, ?_⟩
  · intro ds1 ds2 params h1 h2 hd1 hd2
    have hne_point :
        ('n' :: 'u' :: 'm' :: 'e' :: 'r' :: 'i' :: 'c' :: '(' ::(ds1 ++ (',' :: (ds2 ++ [')'])))) ≠
          "point".toList := by
      rw [show "point".toList = ['p', 'o', 'i', 'n', 't'] from rfl]
      simp
    have hpre : ("numeric".toList).isPrefixOf
        ('n' :: 'u' :: 'm' :: 'e' :: 'r' :: 'i' :: 'c' :: '(' ::(ds1 ++ (',' :: (ds2 ++ [')'])))) = true := by
      simp [List.isPrefixOf]
    have hlp : substrL ['(']
        ('n' :: 'u' :: 'm' :: 'e' :: 'r' :: 'i' :: 'c' :: '(' ::(ds1 ++ (',' :: (ds2 ++ [')'])))) = true := by
      simp [substrL]
    have hassoc : ('n' :: 'u' :: 'm' :: 'e' :: 'r' :: 'i' :: 'c' :: '(' ::(ds1 ++ (',' :: (ds2 ++ [')'])))) =
        ('n' :: 'u' :: 'm' :: 'e' :: 'r' :: 'i' :: 'c' :: '(' ::(ds1 ++ (',' :: ds2))) ++ [')'] := by
      simp
    have hrp : substrL [')']
        ('n' :: 'u' :: 'm' :: 'e' :: 'r' :: 'i' :: 'c' :: '(' ::(ds1 ++ (',' :: (ds2 ++ [')'])))) = true := by
      rw [hassoc]
      exact substrL_append_right _ _ _ (by decide)
    have hand : (substrL ['(']
          ('n' :: 'u' :: 'm' :: 'e' :: 'r' :: 'i' :: 'c' :: '(' ::(ds1 ++ (',' :: (ds2 ++ [')'])))) &&
        substrL [')']
          ('n' :: 'u' :: 'm' :: 'e' :: 'r' :: 'i' :: 'c' :: '(' ::(ds1 ++ (',' :: (ds2 ++ [')'])))))
        = true := by
      rw [hlp, hrp]
      rfl
    have hsearch := searchNumeric_canonical ds1 ds2 [] h1 h2 hd1 hd2
    simp only [convert_type, toList_mk, converter_init, lookupMapping]
    rw [if_neg hne_point, if_pos hpre, if_pos hand, hsearch]
    simp only [substr]
    congr 1
    unfold numericResult decimalStr
    split_ifs <;> rfl
  · intro params
    simp only [convert_type, converter_init, lookupMapping]
    rw [if_neg (by decide), if_pos (by decide : (("numeric".toList).isPrefixOf
      "numeric".toList) = true), if_neg (by decide)]
    have halign : substrL ("unsigned".toList) (pyLower params).toList =
        substr "unsigned" (pyLower params) := rfl
    rw [halign]
    cases hsub : substr "unsigned" (pyLower params) <;> simp [numericResult, hsub]
  · intro t params hpre hlp hrp hsearch
    have hne_point : t.toList ≠ "point".toList := by
      intro hcontra
      rw [hcontra] at hpre
      exact absurd hpre (by decide)
    have hand : (substrL ['('] t.toList && substrL [')'] t.toList) = true := by
      rw [hlp, hrp]
      rfl
    simp only [convert_type, converter_init, lookupMapping]
    rw [if_neg hne_point, if_pos hpre, if_pos hand, hsearch]

theorem c1_numeric_type_mapping_witness :
    convert_type (converter_init none)
        (String.mk ('n' :: 'u' :: 'm' :: 'e' :: 'r' :: 'i' :: 'c' :: '(' ::(['5'] ++ (',' :: (['2'] ++ [')'])))))
        "" =
      Except.ok "Decimal(5, 2)" := by
  have h := c1_numeric_type_mapping.1 ['5'] ['2'] ""
    (by decide) (by decide) (by decide) (by decide)
  rw [h]
  decide

theorem extractQuotedAux_open (x : List Char) :
    extractQuotedAux (q :: x) none = extractQuotedAux x (some []) := by
  simp [extractQuotedAux]

theorem extractQuotedAux_skip (c : Char) (rest : List Char) (hc : c ≠ q) :
    extractQuotedAux (c :: rest) none = extractQuotedAux rest none := by
  simp [extractQuotedAux, hc]

theorem extractQuotedAux_inside (lab : List Char) :
    ∀ (acc rest : List Char), q ∉ lab →
    extractQuotedAux (lab ++ q :: rest) (some acc) =
      String.mk (acc.reverse ++ lab) :: extractQuotedAux rest none := by
  induction lab with
  | nil =>
    intro acc rest _
    simp [extractQuotedAux]
  | cons c lab' ih =>
    intro acc rest hq
    have hcq : c ≠ q := by
      intro he
      subst he
      exact hq (List.mem_cons_self _ _)
    have hq' : q ∉ lab' := fun h => hq (List.mem_cons_of_mem _ h)
    simp only [List.cons_append, extractQuotedAux, if_neg hcq, List.append_eq]
    rw [ih (c :: acc) rest hq']
    simp

theorem extractQuotedAux_quotedJoin (labels : List String) :
    ∀ rest : List Char, (∀ lab ∈ labels, q ∉ lab.toList) →
    extractQuotedAux rest none = [] →
    extractQuotedAux (quotedJoin labels ++ rest) none = labels := by
  induction labels with
  | nil =>
    intro rest _ hrest
    simpa [quotedJoin] using hrest
  | cons lab labs ih =>
    intro rest hq hrest
    have hlab : q ∉ lab.toList := hq lab (List.mem_cons_self _ _)
    have hlabs : ∀ l ∈ labs, q ∉ l.toList := fun l hl => hq l (List.mem_cons_of_mem _ hl)
    cases labs with
    | nil =>
      simp only [quotedJoin, quoted, List.cons_append, List.append_assoc,
        List.singleton_append, List.nil_append]
      rw [extractQuotedAux_open, extractQuotedAux_inside lab.toList [] rest hlab]
      simp [hrest, mk_toList]
    | cons lab2 labs2 =>
      simp only [quotedJoin, quoted, List.cons_append, List.append_assoc,
        List.singleton_append, List.nil_append]
      rw [extractQuotedAux_open,
        extractQuotedAux_inside lab.toList [] (',' :: (quotedJoin (lab2 :: labs2) ++ rest)) hlab,
        extractQuotedAux_skip ',' _ (by decide), ih rest hlabs hrest]
      simp [mk_toList]

/-- C5 counterexample: the enum declaration `enum('smallint')` is caught by
the earlier `smallint` substring rule of `convert_type` and maps to `Int16`,
not to the Enum8 type the claim prescribes for every enum declaration. -/
theorem c5_enum_counterexample :
    convert_type (converter_init none) "enum('smallint')" "" = Except.ok "Int16" ∧
    ("Int16" : String) ≠ "Enum8('smallint' = 1)" :=
  ⟨by decide, by decide⟩

/-- C5 as amended: for an enum declaration whose text is not captured by one
of the earlier substring rules (`smallint`, `tinyint`, `mediumint`,
`datetime`, `longtext`, `varchar`) and whose labels hold no quote character,
`convert_type` returns Enum8 when the label count is at most 127 and Enum16
otherwise, with the labels lower-cased, in declaration order, carrying
consecutive 1-based ordinals. -/
theorem c5_enum_type_mapping_amended :
    ∀ (labels : List String) (params : String),
      (∀ lab ∈ labels, q ∉ lab.toList) →
      substrL ("smallint".toList) (enumDecl labels) = false →
      substrL ("tinyint".toList) (enumDecl labels) = false →
      substrL ("mediumint".toList) (enumDecl labels) = false →
      substrL ("datetime".toList) (enumDecl labels) = false →
      substrL ("longtext".toList) (enumDecl labels) = false →
      substrL ("varchar".toList) (enumDecl labels) = false →
      convert_type (converter_init none) (String.mk (enumDecl labels)) params =
        Except.ok (if labels.length ≤ 127 then "Enum8(" ++ chEnumValues labels ++ ")"
                   else "Enum16(" ++ chEnumValues labels ++ ")") := by
  intro labels params hq hs1 hs2 hs3 hs4 hs5 hs6
  have hne_point : enumDecl labels ≠ "point".toList := by
    rw [show "point".toList = ['p', 'o', 'i', 'n', 't'] from rfl]
    simp [enumDecl]
  have hnum : ("numeric".toList).isPrefixOf (enumDecl labels) = false := by
    simp only [enumDecl]
    rfl
  have hne_int : enumDecl labels ≠ "int".toList := by
    rw [show "int".toList = ['i', 'n', 't'] from rfl]
    simp [enumDecl]
  have hne_integer : enumDecl labels ≠ "integer".toList := by
    rw [show "integer".toList = ['i', 'n', 't', 'e', 'g', 'e', 'r'] from rfl]
    simp [enumDecl]
  have hne_bigint : enumDecl labels ≠ "bigint".toList := by
    rw [show "bigint".toList = ['b', 'i', 'g', 'i', 'n', 't'] from rfl]
    simp [enumDecl]
  have hne_double : enumDecl labels ≠ "double".toList := by
    rw [show "double".toList = ['d', 'o', 'u', 'b', 'l', 'e'] from rfl]
    simp [enumDecl]
  have hne_real : enumDecl labels ≠ "real".toList := by
    rw [show "real".toList = ['r', 'e', 'a', 'l'] from rfl]
    simp [enumDecl]
  have hne_float : enumDecl labels ≠ "float".toList := by
    rw [show "float".toList = ['f', 'l', 'o', 'a', 't'] from rfl]
    simp [enumDecl]
  have hne_date : enumDecl labels ≠ "date".toList := by
    rw [show "date".toList = ['d', 'a', 't', 'e'] from rfl]
    simp [enumDecl]
  have hne_tinyint1 : enumDecl labels ≠ "tinyint(1)".toList := by
    rw [show "tinyint(1)".toList = ['t', 'i', 'n', 'y', 'i', 'n', 't', '(', '1', ')'] from rfl]
    simp [enumDecl]
  have hne_bit1 : enumDecl labels ≠ "bit(1)".toList := by
    rw [show "bit(1)".toList = ['b', 'i', 't', '(', '1', ')'] from rfl]
    simp [enumDecl]
  have hne_bool : enumDecl labels ≠ "bool".toList := by
    rw [show "bool".toList = ['b', 'o', 'o', 'l'] from rfl]
    simp [enumDecl]
  have henum : ("enum".toList).isPrefixOf (enumDecl labels) = true := by
    simp only [enumDecl]
    rfl
  have hparse : parse_mysql_enum (enumDecl labels) = labels := by
    simp only [parse_mysql_enum, enumDecl, List.cons_append]
    rw [extractQuotedAux_skip 'e' _ (by decide), extractQuotedAux_skip 'n' _ (by decide),
      extractQuotedAux_skip 'u' _ (by decide), extractQuotedAux_skip 'm' _ (by decide),
      extractQuotedAux_skip '(' _ (by decide)]
    exact extractQuotedAux_quotedJoin labels [')'] hq (by decide)
  simp only [convert_type, toList_mk, converter_init, lookupMapping]
  rw [if_neg hne_point, if_neg (by simp_all), if_neg hne_int, if_neg hne_integer,
    if_neg hne_bigint, if_neg hne_double, if_neg hne_real, if_neg hne_float, if_neg hne_date,
    if_neg hne_tinyint1, if_neg hne_bit1, if_neg hne_bool, if_neg (by simp_all),
    if_neg (by simp_all), if_neg (by simp_all), if_neg (by simp_all),
    if_neg (by simp_all), if_neg (by simp_all), if_pos (by simp_all), hparse]
  by_cases hlen : labels.length ≤ 127 <;> simp [hlen]

theorem c5_enum_type_mapping_amended_witness :
    convert_type (converter_init none) "enum('red','green','black')" "" =
      Except.ok "Enum8('red' = 1, 'green' = 2, 'black' = 3)" := by
  have h := c5_enum_type_mapping_amended ["red", "green", "black"] ""
    (by decide) (by decide) (by decide) (by decide) (by decide) (by decide) (by decide)
  rw [show ("enum('red','green','black')" : String) =
    String.mk (enumDecl ["red", "green", "black"]) from by decide, h]
  decide

theorem convert_record_value_null (idx : Nat) (mt ct : String) (st : TableStructure)
    (htime : ("time".toList).isPrefixOf mt.toList = false)
    (hjson : mt ≠ "json")
    (hpoint : ("point".toList).isPrefixOf mt.toList = false)
    (hfield : idx < st.fields.length) :
    convert_record_value idx Value.null mt ct st = Except.ok Value.null := by
  have htime2 := htime
  have hpoint2 := hpoint
  simp at htime2 hpoint2
  by_cases henum : ("enum(".toList).isPrefixOf mt.toList = true
  · have henum2 := henum
    simp at henum2
    simp [convert_record_value, htime2, hjson, hpoint2, henum2, enum_step,
      List.getElem?_eq_getElem hfield, convert_mysql_to_clickhouse_enum, except_bind_ok]
  · have henum2 := henum
    simp at henum2
    simp [convert_record_value, htime2, hjson, hpoint2, henum2, except_bind_ok]

/-- C3: a null incoming value skips the UUID, unsigned-correction, charset
and set steps (the block guarded on non-null), and for a column whose MySQL
type is not a time/json/point type the output value is null unchanged — for
enum columns because the enum conversion hands a null through. -/
theorem c3_null_short_circuit :
    (∀ (idx : Nat) (mt ct : String) (st : TableStructure),
       ("time".toList).isPrefixOf mt.toList = false → mt ≠ "json" →
       ("point".toList).isPrefixOf mt.toList = false → idx < st.fields.length →
       convert_record_value idx Value.null mt ct st = Except.ok Value.null) ∧
    (∀ (mt ct : String) (st : TableStructure) (only_primary : Bool),
       ("time".toList).isPrefixOf mt.toList = false → mt ≠ "json" →
       ("point".toList).isPrefixOf mt.toList = false → 0 < st.fields.length →
       convert_record [Value.null] [mt] [ct] st only_primary = Except.ok [Value.null]) := by
  constructor
  · exact convert_record_value_null
  · intro mt ct st only_primary htime hjson hpoint hfield
    simp only [convert_record, convert_record_go]
    by_cases hop : (only_primary && !(st.primary_key_ids.contains 0)) = true
    · rw [if_pos hop]
      rfl
    · rw [if_neg hop]
      simp only [List.getElem?_cons_zero]
      rw [convert_record_value_null 0 mt ct st htime hjson hpoint hfield]
      rfl

theorem c3_null_short_circuit_witness :
    convert_record_value 0 Value.null "int" "Nullable(UInt32)" (sampleStructure "int") =
      Except.ok Value.null :=
  c3_null_short_circuit.1 0 "int" "Nullable(UInt32)" (sampleStructure "int")
    (by decide) (by decide) (by decide) (by decide)

end Converter
